import Mathlib

/-!
Verification of the detection and reporting engine of `rfidSimulator.py`
(RFID yard simulation).

The Python source is shallowly embedded: classes become structures, methods
become pure functions that return the updated structure, `datetime.now()`
becomes an explicit integer timestamp argument, and the random draws of
`Moto.__init__` become explicit parameters.  Positions and radii are
rationals, fuel levels and timestamps are integers, statuses / models /
identifiers are the strings of the source.

The only deliberate representation change: the source computes
`distance = sqrt(dx**2 + dy**2)` and compares `distance <= range`, and it
stores that `distance` in each detection event.  Real square roots are not
computable, so the embedding carries the squared distance `distSq` and
performs the equivalent test `distSq <= range^2` (equivalent whenever
`0 <= range`, which holds for every configured reader; the equivalence with
the source's test is `sqrt_dist_le_iff` below, proved via
`Real.sqrt_le_left`).  Detection events accordingly store the squared
distance in the field `distanceSq`.
-/

/-- `PATIO_WIDTH = 100` (yard width in metres). -/
def PATIO_WIDTH : ℚ := 100

/-- `PATIO_HEIGHT = 80` (yard height in metres). -/
def PATIO_HEIGHT : ℚ := 80

/-- A yard area rectangle from the `AREAS` table (render color omitted:
it is presentation-only). -/
structure Area where
  x : ℚ
  y : ℚ
  width : ℚ
  height : ℚ
deriving DecidableEq

/-- `AREAS['entrada']`. -/
def AREAS_entrada : Area := { x := 0, y := 35, width := 10, height := 10 }

/-- `AREAS['saida']`. -/
def AREAS_saida : Area := { x := 90, y := 35, width := 10, height := 10 }

/-- `AREAS['estacionamento']`. -/
def AREAS_estacionamento : Area := { x := 20, y := 10, width := 60, height := 60 }

/-- `AREAS['manutencao']`. -/
def AREAS_manutencao : Area := { x := 20, y := 70, width := 30, height := 10 }

/-- One entry of `Moto.movement_history`, as appended by
`Moto.record_position` (a dict with keys `timestamp, x, y, status,
fuel_level`). -/
structure Snapshot where
  timestamp : ℤ
  x : ℚ
  y : ℚ
  status : String
  fuel_level : ℤ
deriving DecidableEq

/-- The `Moto` class: a vehicle with an RFID tag. -/
structure Moto where
  id : String
  model : String
  status : String
  fuel_level : ℤ
  last_maintenance : ℤ
  x : ℚ
  y : ℚ
  movement_history : List Snapshot
  color : String
deriving DecidableEq

/-- `Moto.update_color`: derive the display color from the status
(`disponível` → green, `reservada` → blue, otherwise orange). -/
def Moto.update_color (m : Moto) : Moto :=
  if m.status = "disponível" then { m with color := "green" }
  else if m.status = "reservada" then { m with color := "blue" }
  else { m with color := "orange" }

/-- `Moto.record_position`: append the current state as a snapshot to
`movement_history`.  `now` stands for `datetime.now()`. -/
def Moto.record_position (now : ℤ) (m : Moto) : Moto :=
  { m with movement_history := m.movement_history ++
      [{ timestamp := now, x := m.x, y := m.y, status := m.status,
         fuel_level := m.fuel_level }] }

/-- `Moto.move(dx, dy)`: add the delta to the position, clamp both
coordinates into the yard (`max(0, min(coord, BOUND))`), then record the
position. -/
def Moto.move (now : ℤ) (m : Moto) (dx dy : ℚ) : Moto :=
  let m1 := { m with x := m.x + dx, y := m.y + dy }
  let m2 := { m1 with x := max 0 (min m1.x PATIO_WIDTH),
                      y := max 0 (min m1.y PATIO_HEIGHT) }
  m2.record_position now

/-- `Moto.update_status(new_status)`: replace the status, recompute the
color, record the position. -/
def Moto.update_status (now : ℤ) (m : Moto) (new_status : String) : Moto :=
  (({ m with status := new_status } : Moto).update_color).record_position now

/-- `Moto.update_fuel(amount)`: add `amount` to the fuel level, clamp into
`[0, 100]`, record the position. -/
def Moto.update_fuel (now : ℤ) (m : Moto) (amount : ℤ) : Moto :=
  ({ m with fuel_level := max 0 (min 100 (m.fuel_level + amount)) } :
    Moto).record_position now

/-- `Moto.perform_maintenance()`: set `last_maintenance` to now, set the
fuel level to 100, set the status to `disponível` (via `update_status`,
which also recomputes the color and records the position). -/
def Moto.perform_maintenance (now : ℤ) (m : Moto) : Moto :=
  (({ m with last_maintenance := now, fuel_level := 100 } : Moto)).update_status
    now "disponível"

/-- `Moto.__init__`: the random draws are explicit parameters.
`moto_id`, `model`, `status` stand for the id and the outcomes of the two
`random.choice` calls, `fuel` for `random.randint(10, 100)`, `lastM` for
the computed `last_maintenance` timestamp, and `ox`, `oy` for the
`random.randint` position offsets added to the zone corner (the zone is the
maintenance area when the status is `em manutenção`, the parking area
otherwise).  The history starts empty, one snapshot is recorded, then the
color is derived from the status. -/
def Moto.init (now : ℤ) (moto_id model status : String) (fuel lastM : ℤ)
    (ox oy : ℤ) : Moto :=
  let px : ℚ := if status = "em manutenção" then AREAS_manutencao.x + (ox : ℚ)
                else AREAS_estacionamento.x + (ox : ℚ)
  let py : ℚ := if status = "em manutenção" then AREAS_manutencao.y + (oy : ℚ)
                else AREAS_estacionamento.y + (oy : ℚ)
  let m : Moto := { id := moto_id, model := model, status := status,
                    fuel_level := fuel, last_maintenance := lastM,
                    x := px, y := py, movement_history := [], color := "" }
  (m.record_position now).update_color

/-- One entry of `RFIDReader.detections`, as appended by
`RFIDReader.record_detection`.  The source stores
`distance = sqrt((self.x-moto.x)**2 + (self.y-moto.y)**2)`; the embedding
stores the squared distance (see the header comment). -/
structure Detection where
  timestamp : ℤ
  moto_id : String
  moto_model : String
  moto_status : String
  moto_x : ℚ
  moto_y : ℚ
  distanceSq : ℚ
deriving DecidableEq

/-- The `RFIDReader` class: a fixed sensor with a detection radius and an
append-only detection log. -/
structure RFIDReader where
  id : ℕ
  x : ℚ
  y : ℚ
  range : ℚ
  color : String
  name : Option String
  detections : List Detection
deriving DecidableEq

/-- The squared Euclidean distance `(self.x - moto.x)**2 + (self.y -
moto.y)**2` appearing (under `sqrt`) in `detect_motos` and
`record_detection`. -/
def RFIDReader.distSq (r : RFIDReader) (m : Moto) : ℚ :=
  (r.x - m.x) ^ 2 + (r.y - m.y) ^ 2

/-- The detection event built by `RFIDReader.record_detection`. -/
def RFIDReader.mkDetection (r : RFIDReader) (now : ℤ) (m : Moto) : Detection :=
  { timestamp := now, moto_id := m.id, moto_model := m.model,
    moto_status := m.status, moto_x := m.x, moto_y := m.y,
    distanceSq := r.distSq m }

/-- `RFIDReader.record_detection(moto)`: append one detection event to the
reader's log. -/
def RFIDReader.record_detection (now : ℤ) (r : RFIDReader) (m : Moto) :
    RFIDReader :=
  { r with detections := r.detections ++ [r.mkDetection now m] }

/-- The threshold test of `detect_motos`: `distance <= self.range` in the
source, embedded as the equivalent squared comparison (see
`sqrt_dist_le_iff`). -/
def RFIDReader.inRange (r : RFIDReader) (m : Moto) : Bool :=
  decide (r.distSq m ≤ r.range ^ 2)

/-- `RFIDReader.detect_motos(motos)`: walk the entity list in order; every
moto whose distance passes the threshold test is appended to the returned
list and one detection event is recorded.  The source tests
`sqrt(distSq) <= range`; the embedding tests the equivalent
`distSq <= range^2` (see `sqrt_dist_le_iff`).  The returned pair is
(detected list, reader with its updated log). -/
def RFIDReader.detect_motos (now : ℤ) (r : RFIDReader) :
    List Moto → List Moto × RFIDReader
  | [] => ([], r)
  | moto :: rest =>
    if r.inRange moto then
      let r1 := r.record_detection now moto
      let res := r1.detect_motos now rest
      (moto :: res.1, res.2)
    else r.detect_motos now rest

/-- `RFIDReader.get_recent_detections(seconds)`: the sublist of the log
whose timestamp is strictly greater than `now - seconds`. -/
def RFIDReader.get_recent_detections (now : ℤ) (r : RFIDReader)
    (seconds : ℤ) : List Detection :=
  let cutoff_time := now - seconds
  r.detections.filter (fun d => decide (cutoff_time < d.timestamp))

/-- The report produced by `MottuPatioSimulation.generate_report`, with the
nested dict keys flattened: `status_counts` → the three `status_*` fields,
`fuel_levels` → the four `fuel_*` fields, `reader_detections` → the list of
(reader id, log length) pairs. -/
structure Report where
  total_motos : ℕ
  status_disponivel : ℕ
  status_reservada : ℕ
  status_manutencao : ℕ
  fuel_critico : ℕ
  fuel_baixo : ℕ
  fuel_medio : ℕ
  fuel_alto : ℕ
  reader_detections : List (ℕ × ℕ)
deriving DecidableEq

/-- The engine state of the `MottuPatioSimulation` class: the entity
collection and the reader collection (the matplotlib figure state and the
unused `events_log` are presentation-only and omitted). -/
structure MottuPatioSimulation where
  motos : List Moto
  readers : List RFIDReader
deriving DecidableEq

/-- `MottuPatioSimulation.generate_report()`: tally the motos by status and
by fuel bracket (`<20`, `20<=f<50`, `50<=f<80`, `>=80`), and list each
reader's cumulative detection count. -/
def MottuPatioSimulation.generate_report (sim : MottuPatioSimulation) :
    Report :=
  { total_motos := sim.motos.length,
    status_disponivel := sim.motos.countP
      (fun m => decide (m.status = "disponível")),
    status_reservada := sim.motos.countP
      (fun m => decide (m.status = "reservada")),
    status_manutencao := sim.motos.countP
      (fun m => decide (m.status = "em manutenção")),
    fuel_critico := sim.motos.countP (fun m => decide (m.fuel_level < 20)),
    fuel_baixo := sim.motos.countP
      (fun m => decide (20 ≤ m.fuel_level ∧ m.fuel_level < 50)),
    fuel_medio := sim.motos.countP
      (fun m => decide (50 ≤ m.fuel_level ∧ m.fuel_level < 80)),
    fuel_alto := sim.motos.countP (fun m => decide (80 ≤ m.fuel_level)),
    reader_detections := sim.readers.map
      (fun r => (r.id, r.detections.length)) }

/-- The engine part of `MottuPatioSimulation.update_visualization(frame)`
(one tick): every reader runs `detect_motos` over the full moto collection,
updating its own log.  The motos themselves are only read: the call
`self.simulate_movements()` is commented out in the source, and the rest of
the method only redraws markers and recomputes the status text. -/
def MottuPatioSimulation.update_visualization (now : ℤ)
    (sim : MottuPatioSimulation) : MottuPatioSimulation :=
  { sim with readers :=
      sim.readers.map (fun r => (r.detect_motos now sim.motos).2) }

/-- `MottuPatioSimulation.simulate_movements()`: the body is `pass` (the
function is intentionally no longer called, to keep the motos static), so
the state is returned unchanged. -/
def MottuPatioSimulation.simulate_movements (sim : MottuPatioSimulation) :
    MottuPatioSimulation :=
  sim

/-- Reader 1 of the `READERS` table (yard entry, radius 15), with an empty
log — as built by `MottuPatioSimulation.__init__`. -/
def reader1 : RFIDReader :=
  { id := 1, x := 5, y := 40, range := 15, color := "red", name := none,
    detections := [] }

/-- A sample moto at position (5, 40) — the spec's detection scenario. -/
def motoA : Moto :=
  { id := "A", model := "CG 160", status := "disponível", fuel_level := 55,
    last_maintenance := 0, x := 5, y := 40, movement_history := [],
    color := "green" }

/-- A sample moto at position (50, 40), out of reader 1's range. -/
def motoB : Moto :=
  { id := "B", model := "Biz 125", status := "reservada", fuel_level := 15,
    last_maintenance := 0, x := 50, y := 40, movement_history := [],
    color := "blue" }

/-- A sample moto in maintenance status. -/
def motoC : Moto :=
  { id := "C", model := "NMax 160", status := "em manutenção",
    fuel_level := 90, last_maintenance := 0, x := 35, y := 75,
    movement_history := [], color := "orange" }

/-- A sample simulation state over the three sample motos and reader 1. -/
def sampleSim : MottuPatioSimulation :=
  { motos := [motoA, motoB, motoC], readers := [reader1] }

/-- Folding a sequence of `update_fuel` calls (timestamp, delta) over a
moto. -/
def fuelFold (m : Moto) (calls : List (ℤ × ℤ)) : Moto :=
  calls.foldl (fun mm c => mm.update_fuel c.1 c.2) m

/-- Folding a sequence of `move` calls (timestamp, dx, dy) over a moto. -/
def moveFold (m : Moto) (calls : List (ℤ × ℚ × ℚ)) : Moto :=
  calls.foldl (fun mm c => mm.move c.1 c.2.1 c.2.2) m

@[simp]
lemma Moto.update_color_status (m : Moto) : m.update_color.status = m.status := by
  unfold Moto.update_color; split_ifs <;> rfl

@[simp]
lemma Moto.update_color_x (m : Moto) : m.update_color.x = m.x := by
  unfold Moto.update_color; split_ifs <;> rfl

@[simp]
lemma Moto.update_color_y (m : Moto) : m.update_color.y = m.y := by
  unfold Moto.update_color; split_ifs <;> rfl

@[simp]
lemma Moto.update_color_fuel (m : Moto) :
    m.update_color.fuel_level = m.fuel_level := by
  unfold Moto.update_color; split_ifs <;> rfl

@[simp]
lemma Moto.update_color_last (m : Moto) :
    m.update_color.last_maintenance = m.last_maintenance := by
  unfold Moto.update_color; split_ifs <;> rfl

@[simp]
lemma Moto.update_color_history (m : Moto) :
    m.update_color.movement_history = m.movement_history := by
  unfold Moto.update_color; split_ifs <;> rfl

/-- The source's detection test `sqrt(dSq) <= rad` is equivalent to the
embedded test `dSq <= rad^2` whenever the radius is nonnegative. -/
lemma sqrt_dist_le_iff (dSq rad : ℚ) (hrad : 0 ≤ rad) :
    Real.sqrt (dSq : ℝ) ≤ (rad : ℝ) ↔ dSq ≤ rad ^ 2 := by
  rw [Real.sqrt_le_left (by exact_mod_cast hrad)]
  constructor <;> intro h <;> exact_mod_cast h

/-- Closed form of `detect_motos`: the returned list is the in-range filter
of the input, and the log grows by exactly one event per detected moto. -/
lemma detect_motos_spec (now : ℤ) (r : RFIDReader) (ms : List Moto) :
    r.detect_motos now ms =
      (ms.filter r.inRange,
       { r with detections :=
           r.detections ++ (ms.filter r.inRange).map (r.mkDetection now) }) := by
  induction ms generalizing r with
  | nil => simp [RFIDReader.detect_motos]
  | cons m rest ih =>
    by_cases h : r.inRange m
    · simp only [RFIDReader.detect_motos, if_pos h, ih,
        List.filter_cons_of_pos h, RFIDReader.record_detection, List.map_cons]
      rw [List.append_assoc]
      rfl
    · simp only [RFIDReader.detect_motos, if_neg h, ih,
        List.filter_cons_of_neg h]

/-- Updating only the `detections` log leaves the range test unchanged. -/
lemma RFIDReader.inRange_set_detections (r : RFIDReader)
    (d : List Detection) :
    RFIDReader.inRange { r with detections := d } = r.inRange := rfl

/-- Updating only the `detections` log leaves the built events unchanged. -/
lemma RFIDReader.mkDetection_set_detections (r : RFIDReader)
    (d : List Detection) (now : ℤ) :
    RFIDReader.mkDetection { r with detections := d } now =
      r.mkDetection now := rfl

/-- C1: `detect_motos` returns exactly the subset of the input entities
whose Euclidean distance from the reader's position is ≤ the reader's
radius — the boundary case `distance == radius` included, since the test is
`≤` — and the returned subset is the order-preserving filter of the input
list.  The second conjunct identifies the embedded test with the source's
`sqrt(distSq) ≤ range` comparison. -/
theorem detect_returns_exactly_in_range_subset (now : ℤ) (r : RFIDReader)
    (ms : List Moto) (hrad : 0 ≤ r.range) :
    (r.detect_motos now ms).1 = ms.filter r.inRange ∧
    ∀ m : Moto, r.inRange m = true ↔
      Real.sqrt ((r.distSq m : ℚ) : ℝ) ≤ (r.range : ℝ) := by
  refine ⟨by rw [detect_motos_spec], fun m => ?_⟩
  rw [RFIDReader.inRange, decide_eq_true_eq]
  exact (sqrt_dist_le_iff _ _ hrad).symm

/-- Witness for C1 at the spec's scenario: reader 1 at (5,40) with radius
15; the moto at (5,40) is detected, the moto at (50,40) is not. -/
theorem detect_returns_exactly_in_range_subset_witness :
    0 ≤ reader1.range ∧
    (reader1.detect_motos 0 [motoA, motoB]).1 =
      [motoA, motoB].filter reader1.inRange ∧
    (reader1.detect_motos 0 [motoA, motoB]).1 = [motoA] := by
  refine ⟨by decide,
    (detect_returns_exactly_in_range_subset 0 reader1 [motoA, motoB]
      (by decide)).1, ?_⟩
  rw [(detect_returns_exactly_in_range_subset 0 reader1 [motoA, motoB]
    (by decide)).1]
  norm_num [List.filter, RFIDReader.inRange, RFIDReader.distSq, reader1,
    motoA, motoB]

/-- C7: `detect_motos` does not mutate the entities (the detected list is a
sublist of the input, returned as-is), changes no reader field other than
the log, appends exactly one event per detected moto, never shrinks the
log, and a second call over the same motos appends a second set of entries
of the same size. -/
theorem detect_mutates_only_reader_log (now now2 : ℤ) (r : RFIDReader)
    (ms : List Moto) :
    ((r.detect_motos now ms).1.Sublist ms) ∧
    ((r.detect_motos now ms).2.id = r.id ∧
     (r.detect_motos now ms).2.x = r.x ∧
     (r.detect_motos now ms).2.y = r.y ∧
     (r.detect_motos now ms).2.range = r.range ∧
     (r.detect_motos now ms).2.color = r.color ∧
     (r.detect_motos now ms).2.name = r.name) ∧
    ((r.detect_motos now ms).2.detections =
       r.detections ++ (r.detect_motos now ms).1.map (r.mkDetection now)) ∧
    (r.detections.length ≤ (r.detect_motos now ms).2.detections.length) ∧
    (((r.detect_motos now ms).2.detect_motos now2 ms).2.detections.length =
       r.detections.length + 2 * (r.detect_motos now ms).1.length) := by
  rw [detect_motos_spec, detect_motos_spec]
  refine ⟨List.filter_sublist _, ⟨rfl, rfl, rfl, rfl, rfl, rfl⟩, rfl, ?_, ?_⟩
  · show r.detections.length ≤
      (r.detections ++ (ms.filter r.inRange).map (r.mkDetection now)).length
    simp
  · show ((r.detections ++ (ms.filter r.inRange).map (r.mkDetection now)) ++
        (ms.filter r.inRange).map (r.mkDetection now2)).length =
      r.detections.length + 2 * (ms.filter r.inRange).length
    simp only [List.length_append, List.length_map]
    omega

/-- C10: every event in a reader's log was recorded with a distance ≤ the
reader's radius — the distance stored by `record_detection` is recomputed
from the same unchanged positions that passed the threshold test — so
`detect_motos` preserves the invariant that the log holds no out-of-range
event. -/
theorem detection_log_within_range (now : ℤ) (r : RFIDReader)
    (ms : List Moto) (hrad : 0 ≤ r.range)
    (hlog : ∀ e ∈ r.detections,
      Real.sqrt ((e.distanceSq : ℚ) : ℝ) ≤ (r.range : ℝ)) :
    ∀ e ∈ (r.detect_motos now ms).2.detections,
      Real.sqrt ((e.distanceSq : ℚ) : ℝ) ≤
        ((r.detect_motos now ms).2.range : ℝ) := by
  rw [detect_motos_spec]
  intro e he
  rw [show ({ r with detections := r.detections ++
      (ms.filter r.inRange).map (r.mkDetection now) } : RFIDReader).range
    = r.range from rfl]
  have he' : e ∈ r.detections ∨
      ∃ a, (a ∈ ms ∧ r.inRange a = true) ∧ r.mkDetection now a = e := by
    simpa using he
  rcases he' with hold | ⟨m, ⟨_, hin⟩, rfl⟩
  · exact hlog e hold
  · have hq : r.distSq m ≤ r.range ^ 2 := by
      simpa [RFIDReader.inRange] using hin
    have hd : (r.mkDetection now m).distanceSq = r.distSq m := rfl
    rw [hd]
    exact (sqrt_dist_le_iff _ _ hrad).2 hq

/-- Witness for C10: reader 1 starts with an empty log; after one detection
pass over the sample motos the logged event for the moto at (5, 40) is
within range. -/
theorem detection_log_within_range_witness :
    Real.sqrt (((reader1.mkDetection 0 motoA).distanceSq : ℚ) : ℝ) ≤
      ((reader1.detect_motos 0 [motoA, motoB]).2.range : ℝ) := by
  have hfil : List.filter reader1.inRange [motoA, motoB] = [motoA] := by
    norm_num [List.filter, RFIDReader.inRange, RFIDReader.distSq, reader1,
      motoA, motoB]
  have hmem : reader1.mkDetection 0 motoA ∈
      (reader1.detect_motos 0 [motoA, motoB]).2.detections := by
    rw [detect_motos_spec]
    show reader1.mkDetection 0 motoA ∈
      [] ++ (List.filter reader1.inRange [motoA, motoB]).map
        (reader1.mkDetection 0)
    rw [hfil]
    simp
  exact detection_log_within_range 0 reader1 [motoA, motoB] (by decide)
    (by simp [reader1]) (reader1.mkDetection 0 motoA) hmem

/-- C8: `get_recent_detections` returns exactly the subsequence (order
preserved, log untouched) of the log whose timestamps are strictly greater
than `now - seconds`. -/
theorem recent_detections_filter_spec (now seconds : ℤ) (r : RFIDReader) :
    (r.get_recent_detections now seconds).Sublist r.detections ∧
    ∀ d : Detection, d ∈ r.get_recent_detections now seconds ↔
      (d ∈ r.detections ∧ now - seconds < d.timestamp) := by
  constructor
  · exact List.filter_sublist _
  · intro d
    simp [RFIDReader.get_recent_detections]

/-- C9: the default tick (the engine part of `update_visualization`) only
runs detection: every moto — hence its position, status and fuel level — is
unchanged, and `simulate_movements` (body `pass`, no longer called) is the
identity. -/
theorem default_tick_keeps_motos_static (now : ℤ)
    (sim : MottuPatioSimulation) :
    (sim.update_visualization now).motos = sim.motos ∧
    sim.simulate_movements = sim :=
  ⟨rfl, rfl⟩

/-- C6: `perform_maintenance` on any moto — whatever its prior fuel level
and status — results in fuel 100, status `disponível`, color green, and
`last_maintenance` set to the current time. -/
theorem service_resets_moto (now : ℤ) (m : Moto) :
    (m.perform_maintenance now).fuel_level = 100 ∧
    (m.perform_maintenance now).status = "disponível" ∧
    (m.perform_maintenance now).color = "green" ∧
    (m.perform_maintenance now).last_maintenance = now := by
  refine ⟨rfl, rfl, ?_, rfl⟩
  rfl

/-- C5: each state-changing operation — `update_status`, `update_fuel`, and
the composite `perform_maintenance` — appends exactly one history snapshot,
and that snapshot records the post-change state (timestamp, position,
status, fuel). -/
theorem state_change_appends_one_snapshot (now : ℤ) (m : Moto) (s : String)
    (d : ℤ) :
    (m.update_status now s).movement_history =
      m.movement_history ++
        [{ timestamp := now, x := m.x, y := m.y, status := s,
           fuel_level := m.fuel_level }] ∧
    (m.update_fuel now d).movement_history =
      m.movement_history ++
        [{ timestamp := now, x := m.x, y := m.y, status := m.status,
           fuel_level := max 0 (min 100 (m.fuel_level + d)) }] ∧
    (m.perform_maintenance now).movement_history =
      m.movement_history ++
        [{ timestamp := now, x := m.x, y := m.y, status := "disponível",
           fuel_level := 100 }] := by
  refine ⟨?_, rfl, ?_⟩
  · simp [Moto.update_status, Moto.record_position]
  · simp [Moto.perform_maintenance, Moto.update_status, Moto.record_position]

/-- One `update_fuel` call always lands in `[0, 100]`, so folding any
sequence of calls preserves the bounds. -/
lemma fuelFold_bounds : ∀ (calls : List (ℤ × ℤ)) (m : Moto),
    0 ≤ m.fuel_level → m.fuel_level ≤ 100 →
    0 ≤ (fuelFold m calls).fuel_level ∧
      (fuelFold m calls).fuel_level ≤ 100 := by
  intro calls
  induction calls with
  | nil => exact fun m h0 h1 => ⟨h0, h1⟩
  | cons c t ih =>
    intro m h0 h1
    have hstep : fuelFold m (c :: t) = fuelFold (m.update_fuel c.1 c.2) t :=
      rfl
    have hf : (m.update_fuel c.1 c.2).fuel_level =
        max 0 (min 100 (m.fuel_level + c.2)) := rfl
    rw [hstep]
    exact ih _ (by rw [hf]; omega) (by rw [hf]; omega)

/-- C2: a moto created with fuel drawn from `[10, 100]` starts inside
`[0, 100]` (second conjunct), and any finite sequence of `update_fuel`
calls with arbitrary integer deltas keeps a fuel level that started in
`[0, 100]` inside `[0, 100]` (first conjunct). -/
theorem fuel_level_always_in_bounds (m : Moto) (h0 : 0 ≤ m.fuel_level)
    (h1 : m.fuel_level ≤ 100) (calls : List (ℤ × ℤ)) :
    (0 ≤ (fuelFold m calls).fuel_level ∧
     (fuelFold m calls).fuel_level ≤ 100) ∧
    ∀ (now fuel lastM ox oy : ℤ) (i mo st : String), 10 ≤ fuel →
      fuel ≤ 100 →
      0 ≤ (Moto.init now i mo st fuel lastM ox oy).fuel_level ∧
      (Moto.init now i mo st fuel lastM ox oy).fuel_level ≤ 100 := by
  refine ⟨fuelFold_bounds calls m h0 h1, ?_⟩
  intro now fuel lastM ox oy i mo st hf1 hf2
  have hinit : (Moto.init now i mo st fuel lastM ox oy).fuel_level = fuel := by
    simp [Moto.init, Moto.record_position]
  rw [hinit]
  omega

/-- Witness for C2: a moto with fuel 55 stays in bounds after an overflowing
refuel followed by an overdraining spend. -/
theorem fuel_level_always_in_bounds_witness :
    0 ≤ motoA.fuel_level ∧ motoA.fuel_level ≤ 100 ∧
    0 ≤ (fuelFold motoA [(0, 250), (1, -999)]).fuel_level ∧
    (fuelFold motoA [(0, 250), (1, -999)]).fuel_level ≤ 100 := by
  refine ⟨by decide, by decide, ?_, ?_⟩
  · exact (fuel_level_always_in_bounds motoA (by decide) (by decide)
      [(0, 250), (1, -999)]).1.1
  · exact (fuel_level_always_in_bounds motoA (by decide) (by decide)
      [(0, 250), (1, -999)]).1.2

/-- One `move` call always clamps the position into the yard. -/
lemma move_bounds (now : ℤ) (m : Moto) (dx dy : ℚ) :
    0 ≤ (m.move now dx dy).x ∧ (m.move now dx dy).x ≤ PATIO_WIDTH ∧
    0 ≤ (m.move now dx dy).y ∧ (m.move now dx dy).y ≤ PATIO_HEIGHT := by
  have hx : (m.move now dx dy).x = max 0 (min (m.x + dx) PATIO_WIDTH) := rfl
  have hy : (m.move now dx dy).y = max 0 (min (m.y + dy) PATIO_HEIGHT) := rfl
  rw [hx, hy]
  refine ⟨le_max_left 0 _, max_le ?_ (min_le_right _ _),
    le_max_left 0 _, max_le ?_ (min_le_right _ _)⟩
  · norm_num [PATIO_WIDTH]
  · norm_num [PATIO_HEIGHT]

/-- Folding any sequence of `move` calls keeps a position that started
inside the yard inside the yard. -/
lemma moveFold_bounds : ∀ (calls : List (ℤ × ℚ × ℚ)) (m : Moto),
    0 ≤ m.x → m.x ≤ PATIO_WIDTH → 0 ≤ m.y → m.y ≤ PATIO_HEIGHT →
    0 ≤ (moveFold m calls).x ∧ (moveFold m calls).x ≤ PATIO_WIDTH ∧
      0 ≤ (moveFold m calls).y ∧ (moveFold m calls).y ≤ PATIO_HEIGHT := by
  intro calls
  induction calls with
  | nil => exact fun m hx0 hx1 hy0 hy1 => ⟨hx0, hx1, hy0, hy1⟩
  | cons c t ih =>
    intro m _ _ _ _
    have hstep : moveFold m (c :: t) =
        moveFold (m.move c.1 c.2.1 c.2.2) t := rfl
    obtain ⟨b1, b2, b3, b4⟩ := move_bounds c.1 m c.2.1 c.2.2
    rw [hstep]
    exact ih _ b1 b2 b3 b4

/-- C3: a moto created from in-range random offsets starts inside the yard
bounds (second conjunct), any finite sequence of `move` calls with
arbitrary deltas keeps the position inside the bounds (first conjunct), and
in particular `move(200, 0)` at `x = 90` clamps `x` to the yard width 100
(third conjunct). -/
theorem position_always_in_yard (m : Moto) (hx0 : 0 ≤ m.x)
    (hx1 : m.x ≤ PATIO_WIDTH) (hy0 : 0 ≤ m.y) (hy1 : m.y ≤ PATIO_HEIGHT)
    (calls : List (ℤ × ℚ × ℚ)) :
    (0 ≤ (moveFold m calls).x ∧ (moveFold m calls).x ≤ PATIO_WIDTH ∧
     0 ≤ (moveFold m calls).y ∧ (moveFold m calls).y ≤ PATIO_HEIGHT) ∧
    (∀ (now fuel lastM ox oy : ℤ) (i mo st : String),
      (st = "em manutenção" → 5 ≤ ox ∧ ox ≤ 25 ∧ 2 ≤ oy ∧ oy ≤ 8) →
      (¬st = "em manutenção" → 5 ≤ ox ∧ ox ≤ 55 ∧ 5 ≤ oy ∧ oy ≤ 55) →
      0 ≤ (Moto.init now i mo st fuel lastM ox oy).x ∧
      (Moto.init now i mo st fuel lastM ox oy).x ≤ PATIO_WIDTH ∧
      0 ≤ (Moto.init now i mo st fuel lastM ox oy).y ∧
      (Moto.init now i mo st fuel lastM ox oy).y ≤ PATIO_HEIGHT) ∧
    (∀ (now : ℤ) (mm : Moto), mm.x = 90 → (mm.move now 200 0).x = 100) := by
  refine ⟨moveFold_bounds calls m hx0 hx1 hy0 hy1, ?_, ?_⟩
  · intro now fuel lastM ox oy i mo st hman hpark
    have hix : (Moto.init now i mo st fuel lastM ox oy).x =
        if st = "em manutenção" then AREAS_manutencao.x + (ox : ℚ)
        else AREAS_estacionamento.x + (ox : ℚ) := by
      simp [Moto.init, Moto.record_position]
    have hiy : (Moto.init now i mo st fuel lastM ox oy).y =
        if st = "em manutenção" then AREAS_manutencao.y + (oy : ℚ)
        else AREAS_estacionamento.y + (oy : ℚ) := by
      simp [Moto.init, Moto.record_position]
    rw [hix, hiy]
    by_cases hst : st = "em manutenção"
    · obtain ⟨c1, c2, c3, c4⟩ := hman hst
      have d1 : (5 : ℚ) ≤ (ox : ℚ) := by exact_mod_cast c1
      have d2 : (ox : ℚ) ≤ 25 := by exact_mod_cast c2
      have d3 : (2 : ℚ) ≤ (oy : ℚ) := by exact_mod_cast c3
      have d4 : (oy : ℚ) ≤ 8 := by exact_mod_cast c4
      simp only [hst, if_true, if_pos]
      norm_num [AREAS_manutencao, PATIO_WIDTH, PATIO_HEIGHT]
      constructor
      · linarith
      refine ⟨by linarith, by linarith, by linarith⟩
    · obtain ⟨c1, c2, c3, c4⟩ := hpark hst
      have d1 : (5 : ℚ) ≤ (ox : ℚ) := by exact_mod_cast c1
      have d2 : (ox : ℚ) ≤ 55 := by exact_mod_cast c2
      have d3 : (5 : ℚ) ≤ (oy : ℚ) := by exact_mod_cast c3
      have d4 : (oy : ℚ) ≤ 55 := by exact_mod_cast c4
      simp only [hst, if_false, if_neg]
      norm_num [AREAS_estacionamento, PATIO_WIDTH, PATIO_HEIGHT]
      constructor
      · linarith
      refine ⟨by linarith, by linarith, by linarith⟩
  · intro now mm hmx
    have hmove : (mm.move now 200 0).x =
        max 0 (min (mm.x + 200) PATIO_WIDTH) := rfl
    rw [hmove, hmx]
    norm_num [PATIO_WIDTH, min_def, max_def]

/-- Witness for C3: the moto at (5, 40) remains inside the yard after a
large out-of-bounds move. -/
theorem position_always_in_yard_witness :
    0 ≤ motoA.x ∧ motoA.x ≤ PATIO_WIDTH ∧
    0 ≤ (moveFold motoA [(0, 200, 0)]).x ∧
    (moveFold motoA [(0, 200, 0)]).x ≤ PATIO_WIDTH := by
  refine ⟨by decide, by decide, ?_, ?_⟩
  · exact (position_always_in_yard motoA (by decide) (by decide) (by decide)
      (by decide) [(0, 200, 0)]).1.1
  · exact (position_always_in_yard motoA (by decide) (by decide) (by decide)
      (by decide) [(0, 200, 0)]).1.2.1

/-- Counting with three predicates that hit each element exactly once
totals the list length. -/
lemma countP_three_partition {α : Type} (p q s : α → Bool) (l : List α)
    (h : ∀ a ∈ l, ((if p a then 1 else 0) + (if q a then 1 else 0) +
      (if s a then 1 else 0) : ℕ) = 1) :
    l.countP p + l.countP q + l.countP s = l.length := by
  induction l with
  | nil => simp
  | cons a t ih =>
    have ha := h a (List.mem_cons_self a t)
    have ht := ih (fun x hx => h x (List.mem_cons_of_mem a hx))
    simp only [List.countP_cons, List.length_cons]
    omega

/-- Counting with four predicates that hit each element exactly once
totals the list length. -/
lemma countP_four_partition {α : Type} (p q s u : α → Bool) (l : List α)
    (h : ∀ a ∈ l, ((if p a then 1 else 0) + (if q a then 1 else 0) +
      (if s a then 1 else 0) + (if u a then 1 else 0) : ℕ) = 1) :
    l.countP p + l.countP q + l.countP s + l.countP u = l.length := by
  induction l with
  | nil => simp
  | cons a t ih =>
    have ha := h a (List.mem_cons_self a t)
    have ht := ih (fun x hx => h x (List.mem_cons_of_mem a hx))
    simp only [List.countP_cons, List.length_cons]
    omega

/-- C4: in any simulation state whose statuses are the three enumerated
ones (as every state reached by the program is), the report's three status
counts sum to the total moto count, and the four fuel-bracket counts sum to
the total moto count. -/
theorem report_counts_sum_to_total (sim : MottuPatioSimulation)
    (h : ∀ m ∈ sim.motos, m.status = "disponível" ∨ m.status = "reservada" ∨
      m.status = "em manutenção") :
    (sim.generate_report.status_disponivel +
       sim.generate_report.status_reservada +
       sim.generate_report.status_manutencao =
       sim.generate_report.total_motos) ∧
    (sim.generate_report.fuel_critico + sim.generate_report.fuel_baixo +
       sim.generate_report.fuel_medio + sim.generate_report.fuel_alto =
       sim.generate_report.total_motos) := by
  constructor
  · apply countP_three_partition
    intro a ha
    rcases h a ha with h1 | h1 | h1 <;> rw [h1] <;> decide
  · apply countP_four_partition
    intro a _
    simp only [decide_eq_true_eq]
    split_ifs <;> omega

/-- Witness for C4 on the three sample motos (one per status). -/
theorem report_counts_sum_to_total_witness :
    (sampleSim.generate_report.status_disponivel +
       sampleSim.generate_report.status_reservada +
       sampleSim.generate_report.status_manutencao =
       sampleSim.generate_report.total_motos) ∧
    (sampleSim.generate_report.fuel_critico +
       sampleSim.generate_report.fuel_baixo +
       sampleSim.generate_report.fuel_medio +
       sampleSim.generate_report.fuel_alto =
       sampleSim.generate_report.total_motos) := by
  apply report_counts_sum_to_total
  intro m hm
  have hm' : m = motoA ∨ m = motoB ∨ m = motoC := by
    simpa [sampleSim] using hm
  rcases hm' with rfl | rfl | rfl <;> decide
